import Mathlib

/-!
Formal model of the voice-activity segmentation engine in
src/src/hooks/useAudioRecorder.ts (the raw-PCM / AudioWorklet / WAV-encoding
draft, lines 1-429 of that file).

Modelling conventions:
* JavaScript numbers holding float PCM samples, thresholds and kilobyte sizes
  are modelled as rationals (ℚ); millisecond timestamps (Date.now()) as
  integers (ℤ); frame counters as naturals (ℕ).
* An ArrayBuffer/DataView is modelled as a List ℕ of byte values together
  with an in-place overwrite primitive (writeAt) mirroring the sequential
  DataView setUint8/setUint16/setUint32/setInt16 little-endian writes.
* The mutable refs of the React hook are gathered into one record, RecState;
  every callback invocation (onSpeechStart, onSpeechEnd, onSilenceSubmit,
  onDataAvailable, onError) is modelled as an emitted Event, returned in
  invocation order.  Console logging and the dev-only volume log are pure
  side effects on the console and are not modelled.
* The analyser frequency snapshot read by isSilent is passed to checkSilence
  as an explicit per-tick input (freqData), since it is the only data the
  tick reads from the environment besides Date.now().
-/

namespace AudioRecorder

/-- WAV encoder configuration constant from the source: const SAMPLE_RATE = 16000. -/
def SAMPLE_RATE : ℕ := 16000

/-- WAV encoder configuration constant from the source: const CHANNELS = 1. -/
def CHANNELS : ℕ := 1

/-- WAV encoder configuration constant from the source: const BITS_PER_SAMPLE = 16. -/
def BITS_PER_SAMPLE : ℕ := 16

/-- Hysteresis constant from the source: const MIN_SPEECH_FRAMES = 5. -/
def MIN_SPEECH_FRAMES : ℕ := 5

/-- Hysteresis constant from the source: const MIN_SILENCE_FRAMES = 5. -/
def MIN_SILENCE_FRAMES : ℕ := 5

/-- Overwrite the contents of a buffer starting at a given offset, one element
per step, leaving the rest unchanged; models consecutive DataView writes into
an ArrayBuffer (and the Float32Array.set copy in mergeFloat32Arrays). -/
def writeAt {α : Type} (buf : List α) (off : ℕ) : List α → List α
  | [] => buf
  | x :: rest => writeAt (buf.set off x) (off + 1) rest

/-- ASCII byte values of a string, as written by writeString via charCodeAt. -/
def ascii (s : String) : List ℕ := s.data.map Char.toNat

/-- Little-endian bytes of a 16-bit unsigned value (DataView.setUint16 with
littleEndian = true). -/
def u16le (x : ℕ) : List ℕ := [x % 256, x / 256 % 256]

/-- Little-endian bytes of a 32-bit unsigned value (DataView.setUint32 with
littleEndian = true). -/
def u32le (x : ℕ) : List ℕ :=
  [x % 256, x / 256 % 256, x / 65536 % 256, x / 16777216 % 256]

/-- Truncation toward zero of a rational, as the ECMAScript ToIntegerOrInfinity
step of DataView.setInt16 does to the float argument. -/
def truncQ (q : ℚ) : ℤ := q.num.tdiv (q.den : ℤ)

/-- The per-sample conversion inside floatTo16BitPCM: clamp the float sample to
[-1, 1] with Math.max/Math.min, scale negative values by 0x8000 and
non-negative ones by 0x7FFF. -/
def pcm16 (x : ℚ) : ℤ :=
  let s := max (-1) (min 1 x)
  truncQ (if s < 0 then s * 0x8000 else s * 0x7FFF)

/-- Two's-complement little-endian storage of a signed 16-bit value
(DataView.setInt16 with littleEndian = true). -/
def i16le (v : ℤ) : List ℕ := u16le ((v % 65536).toNat)

/-- Bytes contributed to the data chunk by one float sample. -/
def sampleBytes (x : ℚ) : List ℕ := i16le (pcm16 x)

/-- The loop of floatTo16BitPCM(view, offset, input): for each input sample,
write its converted 16-bit value at the running offset and advance by 2. -/
def floatTo16BitPCM (buf : List ℕ) (off : ℕ) : List ℚ → List ℕ
  | [] => buf
  | x :: rest => floatTo16BitPCM (writeAt buf off (sampleBytes x)) (off + 2) rest

/-- A Blob, as produced by new Blob([buffer], \x7b type: ... \x7d): its byte
contents plus the declared MIME type. -/
structure WavBlob where
  bytes : List ℕ
  btype : String
  deriving DecidableEq

/-- Blob.size: the byte length of the blob contents. -/
def WavBlob.size (b : WavBlob) : ℕ := b.bytes.length

/-- Model of encodeWAV(samples): allocate a zero ArrayBuffer of
44 + samples.length * 2 bytes and perform the exact sequence of header writes
of the source, then the floatTo16BitPCM data write at offset 44. -/
def encodeWAV (samples : List ℚ) : WavBlob :=
  let n := samples.length
  let buf0 : List ℕ := List.replicate (44 + n * 2) 0
  let b1 := writeAt buf0 0 (ascii ("RIFF"))
  let b2 := writeAt b1 4 (u32le (36 + n * 2))
  let b3 := writeAt b2 8 (ascii ("WAVE"))
  let b4 := writeAt b3 12 (ascii ("fmt "))
  let b5 := writeAt b4 16 (u32le 16)
  let b6 := writeAt b5 20 (u16le 1)
  let b7 := writeAt b6 22 (u16le CHANNELS)
  let b8 := writeAt b7 24 (u32le SAMPLE_RATE)
  let b9 := writeAt b8 28 (u32le (SAMPLE_RATE * CHANNELS * BITS_PER_SAMPLE / 8))
  let b10 := writeAt b9 32 (u16le (CHANNELS * BITS_PER_SAMPLE / 8))
  let b11 := writeAt b10 34 (u16le BITS_PER_SAMPLE)
  let b12 := writeAt b11 36 (ascii ("data"))
  let b13 := writeAt b12 40 (u32le (n * 2))
  let b14 := floatTo16BitPCM b13 44 samples
  { bytes := b14, btype := "audio/wav" }

/-- Model of mergeFloat32Arrays(arrays): allocate a zero Float32Array of the
total length (computed by the reduce over the chunk lengths) and copy each
chunk at the running offset. -/
def mergeFloat32Arrays (arrays : List (List ℚ)) : List ℚ :=
  let totalLength := arrays.foldl (fun sum arr => sum + arr.length) 0
  let result : List ℚ := List.replicate totalLength 0
  (arrays.foldl (fun acc arr => (writeAt acc.1 acc.2 arr, acc.2 + arr.length))
    (result, 0)).1

/-- Model of the loop of isSilent that runs for i = 4 .. dataArray.length - 1,
accumulating (sum, count); the loop visits exactly the elements of
dataArray.drop 4 in order. -/
def volumeLoop : List ℕ → ℕ × ℕ
  | [] => (0, 0)
  | v :: rest =>
    let p := volumeLoop rest
    (v + p.1, p.2 + 1)

/-- Model of isSilent(analyser): average the frequency magnitudes from index 4
upward, normalize by 255 and compare against the configured silence
threshold.  The dev-only volume console log is omitted. -/
def isSilent (dataArray : List ℕ) (silenceThreshold : ℚ) : Bool :=
  let p := volumeLoop (dataArray.drop 4)
  let average : ℚ := (p.1 : ℚ) / (p.2 : ℚ)
  let normalized := average / 255
  decide (normalized < silenceThreshold)

/-- The configuration options of useAudioRecorder with their source defaults:
silenceThreshold = 0.15, silenceDuration = 2000, minSpeechDuration = 800. -/
structure Config where
  silenceThreshold : ℚ := 0.15
  silenceDuration : ℤ := 2000
  minSpeechDuration : ℤ := 800

/-- The configuration with every option left at its default. -/
def defaultConfig : Config := {}

/-- The mutable refs of the hook gathered into one record.  The has* flags
record whether the corresponding resource ref (stream, audio context,
analyser, media-stream source, worklet/script processor) currently holds a
live object, and intervalActive records whether the checkSilence interval
timer is running. -/
structure RecState where
  isRecording : Bool
  isPaused : Bool
  isPausedRecording : Bool
  isSpeechDetected : Bool
  speechStartTime : ℤ
  silenceStartTime : ℤ
  consecutiveSilentFrames : ℕ
  consecutiveSpeechFrames : ℕ
  pcm : List (List ℚ)
  hasAnalyser : Bool
  hasStream : Bool
  hasAudioContext : Bool
  hasSource : Bool
  hasProcessor : Bool
  intervalActive : Bool

/-- The state before any recording has started: all refs null / false / empty. -/
def initialState : RecState where
  isRecording := false
  isPaused := false
  isPausedRecording := false
  isSpeechDetected := false
  speechStartTime := 0
  silenceStartTime := 0
  consecutiveSilentFrames := 0
  consecutiveSpeechFrames := 0
  pcm := []
  hasAnalyser := false
  hasStream := false
  hasAudioContext := false
  hasSource := false
  hasProcessor := false
  intervalActive := false

/-- One consumer callback invocation. -/
inductive Event where
  | speechStart : Event
  | speechEnd (durationMs : ℤ) : Event
  | silenceSubmit (blob : WavBlob) (blobSizeKB : ℚ) (durationMs : ℤ) : Event
  | dataAvailable (blob : WavBlob) : Event
  | errorEvent : Event
  deriving DecidableEq

/-- Model of getCurrentWavBlob(): null when the chunk list is empty, otherwise
the WAV encoding of the merged chunks. -/
def getCurrentWavBlob (pcmData : List (List ℚ)) : Option WavBlob :=
  if pcmData.length = 0 then none
  else some (encodeWAV (mergeFloat32Arrays pcmData))

/-- Model of one checkSilence() tick.  freqData is the analyser byte frequency
snapshot read by isSilent, now is Date.now().  Returns the updated state and
the callbacks fired during the tick, in order. -/
def checkSilence (cfg : Config) (freqData : List ℕ) (now : ℤ)
    (s : RecState) : RecState × List Event :=
  if s.hasAnalyser = false ∨ s.isRecording = false ∨ s.isPaused = true then
    (s, [])
  else
    let isCurrentlySilent := isSilent freqData cfg.silenceThreshold
    let s1 :=
      if isCurrentlySilent then
        { s with consecutiveSilentFrames := s.consecutiveSilentFrames + 1,
                 consecutiveSpeechFrames := 0 }
      else
        { s with consecutiveSpeechFrames := s.consecutiveSpeechFrames + 1,
                 consecutiveSilentFrames := 0 }
    let p2 :=
      if s1.isSpeechDetected = false ∧
          MIN_SPEECH_FRAMES ≤ s1.consecutiveSpeechFrames then
        ({ s1 with isSpeechDetected := true,
                   speechStartTime :=
                     now - (s1.consecutiveSpeechFrames : ℤ) * 100 },
         [Event.speechStart])
      else (s1, [])
    if p2.1.isSpeechDetected = true ∧
        MIN_SILENCE_FRAMES ≤ p2.1.consecutiveSilentFrames then
      let speechDurationMs := now - p2.1.speechStartTime
      if cfg.minSpeechDuration ≤ speechDurationMs then
        match getCurrentWavBlob p2.1.pcm with
        | some blob =>
          ({ p2.1 with isSpeechDetected := false, speechStartTime := 0,
                       consecutiveSilentFrames := 0, pcm := [] },
           p2.2 ++ [Event.speechEnd speechDurationMs,
                    Event.silenceSubmit blob ((blob.size : ℚ) / 1024)
                      speechDurationMs,
                    Event.dataAvailable blob])
        | none => (p2.1, p2.2)
      else
        ({ p2.1 with isSpeechDetected := false, speechStartTime := 0,
                     consecutiveSilentFrames := 0, pcm := [] }, p2.2)
    else (p2.1, p2.2)

/-- Model of the AudioWorklet port.onmessage handler (and of the
ScriptProcessorNode onaudioprocess fallback, which guards and appends
identically): drop the block if isPausedRecordingRef is set, otherwise push it
onto the current segment chunk list. -/
def workletOnMessage (pcmData : List ℚ) (s : RecState) : RecState :=
  if s.isPausedRecording = true then s
  else { s with pcm := s.pcm ++ [pcmData] }

/-- Model of startRecording().  acqOk records whether
navigator.mediaDevices.getUserMedia resolves; when it rejects, the catch block
fires onError and resolves to false with no ref mutated.  On success all
resources are created, the state fields are reset and the checkSilence
interval timer is started.  Returns the new state, the promise result, and
the callbacks fired. -/
def startRecording (acqOk : Bool) (s : RecState) :
    RecState × Bool × List Event :=
  if acqOk = false then (s, false, [Event.errorEvent])
  else
    ({ s with hasStream := true, hasAudioContext := true, hasAnalyser := true,
              hasSource := true, hasProcessor := true,
              isRecording := true, isPaused := false,
              isPausedRecording := false, isSpeechDetected := false,
              speechStartTime := 0, silenceStartTime := 0,
              consecutiveSilentFrames := 0, consecutiveSpeechFrames := 0,
              pcm := [], intervalActive := true },
     true, [])

/-- Model of pauseRecording(): a no-op when already paused, otherwise set both
pause flags. -/
def pauseRecording (s : RecState) : RecState :=
  if s.isPaused = true then s
  else { s with isPaused := true, isPausedRecording := true }

/-- Model of resumeRecording(): a no-op when not paused, otherwise clear both
pause flags. -/
def resumeRecording (s : RecState) : RecState :=
  if s.isPaused = false then s
  else { s with isPaused := false, isPausedRecording := false }

/-- Model of stopRecording(): stop the interval timer, clear the pause and
recording flags, emit the final segment when speech is detected with a live
speech streak of at least MIN_SPEECH_FRAMES and sufficient duration, then
release every resource and clear the chunk list and frame counters.  Note the
source does not reset isSpeechDetected or speechStartTime here. -/
def stopRecording (cfg : Config) (now : ℤ) (s : RecState) :
    RecState × List Event :=
  let s1 := { s with intervalActive := false, isPaused := false,
                     isPausedRecording := false, isRecording := false }
  let evs :=
    if s1.isSpeechDetected = true ∧
        MIN_SPEECH_FRAMES ≤ s1.consecutiveSpeechFrames then
      let speechDurationMs := now - s1.speechStartTime
      if cfg.minSpeechDuration ≤ speechDurationMs then
        match getCurrentWavBlob s1.pcm with
        | some blob =>
          [Event.speechEnd speechDurationMs,
           Event.silenceSubmit blob ((blob.size : ℚ) / 1024) speechDurationMs,
           Event.dataAvailable blob]
        | none => []
      else []
    else []
  let s2 := { s1 with hasProcessor := false, hasSource := false,
                      hasAudioContext := false, hasStream := false,
                      hasAnalyser := false, pcm := [],
                      consecutiveSilentFrames := 0,
                      consecutiveSpeechFrames := 0 }
  (s2, evs)

/-! ### Byte-layout lemmas for the WAV encoder -/

/-- ASCII bytes of the RIFF chunk id. -/
lemma ascii_RIFF : ascii ("RIFF") = [82, 73, 70, 70] := by decide

/-- ASCII bytes of the WAVE format id. -/
lemma ascii_WAVE : ascii ("WAVE") = [87, 65, 86, 69] := by decide

/-- ASCII bytes of the fmt chunk id (with its trailing space). -/
lemma ascii_fmt : ascii ("fmt ") = [102, 109, 116, 32] := by decide

/-- ASCII bytes of the data chunk id. -/
lemma ascii_data : ascii ("data") = [100, 97, 116, 97] := by decide

/-- Length of a 16-bit little-endian encoding. -/
lemma u16le_length (x : ℕ) : (u16le x).length = 2 := rfl

/-- Length of a 32-bit little-endian encoding. -/
lemma u32le_length (x : ℕ) : (u32le x).length = 4 := rfl

/-- Overwriting never changes the buffer length. -/
lemma writeAt_length {α : Type} (xs : List α) (buf : List α) (off : ℕ) :
    (writeAt buf off xs).length = buf.length := by
  induction xs generalizing buf off with
  | nil => simp [writeAt]
  | cons x rest ih => simp [writeAt, ih]

/-- Overwriting exactly at the end of a prefix p replaces the first
xs.length elements of the suffix. -/
lemma writeAt_fill {α : Type} (xs : List α) (p z : List α)
    (h : xs.length ≤ z.length) :
    writeAt (p ++ z) p.length xs = p ++ (xs ++ z.drop xs.length) := by
  induction xs generalizing p z with
  | nil => simp [writeAt]
  | cons x rest ih =>
    cases z with
    | nil => simp at h
    | cons z0 zt =>
      have hset : (p ++ z0 :: zt).set p.length x = (p ++ [x]) ++ zt := by
        rw [List.set_append]
        simp
      have hlen : p.length + 1 = (p ++ [x]).length := by simp
      have hrest : rest.length ≤ zt.length := by
        simp at h; omega
      calc writeAt (p ++ z0 :: zt) p.length (x :: rest)
          = writeAt ((p ++ [x]) ++ zt) ((p ++ [x]).length) rest := by
            rw [writeAt, hset, hlen]
        _ = (p ++ [x]) ++ (rest ++ zt.drop rest.length) := ih (p ++ [x]) zt hrest
        _ = p ++ (x :: rest ++ (z0 :: zt).drop (x :: rest).length) := by
            simp

/-- A sequential write into the zero region right after the written prefix. -/
lemma writeAt_step (p : List ℕ) (m : ℕ) (xs : List ℕ) (off k : ℕ)
    (hoff : off = p.length) (hk : xs.length = k) (h : k ≤ m) :
    writeAt (p ++ List.replicate m 0) off xs =
      (p ++ xs) ++ List.replicate (m - k) 0 := by
  subst hoff hk
  rw [writeAt_fill xs p _ (by simp; omega)]
  rw [List.drop_replicate]
  simp [List.append_assoc]

/-- The first write, into an all-zero buffer at offset 0. -/
lemma writeAt_start (m : ℕ) (xs : List ℕ) (k : ℕ)
    (hk : xs.length = k) (h : k ≤ m) :
    writeAt (List.replicate m 0) 0 xs = xs ++ List.replicate (m - k) 0 := by
  subst hk
  have h0 := writeAt_fill xs [] (List.replicate m (0 : ℕ)) (by simp; omega)
  simpa [List.drop_replicate] using h0

/-- Each sample contributes exactly two bytes. -/
lemma sampleBytes_length (x : ℚ) : (sampleBytes x).length = 2 := rfl

/-- The flat data-chunk contents described by the specification: the samples
in order, each as its clamped, scaled, 16-bit little-endian encoding. -/
def pcmDataBytes : List ℚ → List ℕ
  | [] => []
  | x :: rest => sampleBytes x ++ pcmDataBytes rest

/-- The data chunk holds two bytes per sample. -/
lemma pcmDataBytes_length (samples : List ℚ) :
    (pcmDataBytes samples).length = 2 * samples.length := by
  induction samples with
  | nil => simp [pcmDataBytes]
  | cons x rest ih => simp [pcmDataBytes, sampleBytes_length, ih]; ring

/-- The 44-byte RIFF/WAVE header described by the specification, field by
field: RIFF id, chunk size 36 + 2N, WAVE id, fmt chunk of declared size 16
with PCM tag 1, channel count, sample rate, byte rate, block align and bits
per sample, then the data chunk id with declared size 2N. -/
def wavHeaderBytes (n : ℕ) : List ℕ :=
  ascii ("RIFF") ++ u32le (36 + n * 2) ++ ascii ("WAVE") ++ ascii ("fmt ") ++
  u32le 16 ++ u16le 1 ++ u16le CHANNELS ++ u32le SAMPLE_RATE ++
  u32le (SAMPLE_RATE * CHANNELS * BITS_PER_SAMPLE / 8) ++
  u16le (CHANNELS * BITS_PER_SAMPLE / 8) ++ u16le BITS_PER_SAMPLE ++
  ascii ("data") ++ u32le (n * 2)

/-- The floatTo16BitPCM loop writes the per-sample byte pairs consecutively
into the zero region starting right after the written prefix. -/
lemma floatTo16BitPCM_eq (samples : List ℚ) (p z : List ℕ) (off : ℕ)
    (hoff : off = p.length) (h : 2 * samples.length ≤ z.length) :
    floatTo16BitPCM (p ++ z) off samples =
      p ++ (pcmDataBytes samples ++ z.drop (2 * samples.length)) := by
  induction samples generalizing p z off with
  | nil =>
    subst hoff
    simp [floatTo16BitPCM, pcmDataBytes]
  | cons x rest ih =>
    subst hoff
    have hz : (sampleBytes x).length ≤ z.length := by
      rw [sampleBytes_length]; simp at h; omega
    simp only [floatTo16BitPCM]
    rw [writeAt_fill (sampleBytes x) p z hz, sampleBytes_length]
    have hassoc : p ++ (sampleBytes x ++ z.drop 2) =
        (p ++ sampleBytes x) ++ z.drop 2 := by simp
    rw [hassoc]
    have hoff2 : p.length + 2 = (p ++ sampleBytes x).length := by
      simp [sampleBytes_length]
    rw [hoff2]
    rw [ih (p ++ sampleBytes x) (z.drop 2) _ rfl
      (by simp at h ⊢; omega)]
    have hidx : 2 + 2 * rest.length = 2 * (x :: rest).length := by
      simp; ring
    simp only [pcmDataBytes, List.drop_drop, List.append_assoc, hidx]

/-- The full byte layout of encodeWAV: the declarative 44-byte header followed
by the flat PCM16 data chunk. -/
lemma encodeWAV_bytes (samples : List ℚ) :
    (encodeWAV samples).bytes =
      wavHeaderBytes samples.length ++ pcmDataBytes samples := by
  set n := samples.length with hn
  simp only [encodeWAV, ascii_RIFF, ascii_WAVE, ascii_fmt, ascii_data, ← hn]
  rw [writeAt_start (44 + n * 2) [82, 73, 70, 70] 4 rfl (by omega)]
  rw [writeAt_step [82, 73, 70, 70] (44 + n * 2 - 4)
    (u32le (36 + n * 2)) 4 4 (by simp [u16le_length, u32le_length]) rfl (by omega)]
  rw [writeAt_step ([82, 73, 70, 70] ++ u32le (36 + n * 2))
    (44 + n * 2 - 4 - 4) [87, 65, 86, 69] 8 4 (by simp [u16le_length, u32le_length]) rfl (by omega)]
  rw [writeAt_step ([82, 73, 70, 70] ++ u32le (36 + n * 2) ++ [87, 65, 86, 69])
    (44 + n * 2 - 4 - 4 - 4) [102, 109, 116, 32] 12 4 (by simp [u16le_length, u32le_length]) rfl (by omega)]
  rw [writeAt_step ([82, 73, 70, 70] ++ u32le (36 + n * 2) ++ [87, 65, 86, 69]
      ++ [102, 109, 116, 32])
    (44 + n * 2 - 4 - 4 - 4 - 4) (u32le 16) 16 4 (by simp [u16le_length, u32le_length]) rfl (by omega)]
  rw [writeAt_step ([82, 73, 70, 70] ++ u32le (36 + n * 2) ++ [87, 65, 86, 69]
      ++ [102, 109, 116, 32] ++ u32le 16)
    (44 + n * 2 - 4 - 4 - 4 - 4 - 4) (u16le 1) 20 2 (by simp [u16le_length, u32le_length]) rfl (by omega)]
  rw [writeAt_step ([82, 73, 70, 70] ++ u32le (36 + n * 2) ++ [87, 65, 86, 69]
      ++ [102, 109, 116, 32] ++ u32le 16 ++ u16le 1)
    (44 + n * 2 - 4 - 4 - 4 - 4 - 4 - 2) (u16le CHANNELS) 22 2 (by simp [u16le_length, u32le_length]) rfl
    (by omega)]
  rw [writeAt_step ([82, 73, 70, 70] ++ u32le (36 + n * 2) ++ [87, 65, 86, 69]
      ++ [102, 109, 116, 32] ++ u32le 16 ++ u16le 1 ++ u16le CHANNELS)
    (44 + n * 2 - 4 - 4 - 4 - 4 - 4 - 2 - 2) (u32le SAMPLE_RATE) 24 4 (by simp [u16le_length, u32le_length]) rfl
    (by omega)]
  rw [writeAt_step ([82, 73, 70, 70] ++ u32le (36 + n * 2) ++ [87, 65, 86, 69]
      ++ [102, 109, 116, 32] ++ u32le 16 ++ u16le 1 ++ u16le CHANNELS
      ++ u32le SAMPLE_RATE)
    (44 + n * 2 - 4 - 4 - 4 - 4 - 4 - 2 - 2 - 4)
    (u32le (SAMPLE_RATE * CHANNELS * BITS_PER_SAMPLE / 8)) 28 4 (by simp [u16le_length, u32le_length]) rfl
    (by omega)]
  rw [writeAt_step ([82, 73, 70, 70] ++ u32le (36 + n * 2) ++ [87, 65, 86, 69]
      ++ [102, 109, 116, 32] ++ u32le 16 ++ u16le 1 ++ u16le CHANNELS
      ++ u32le SAMPLE_RATE
      ++ u32le (SAMPLE_RATE * CHANNELS * BITS_PER_SAMPLE / 8))
    (44 + n * 2 - 4 - 4 - 4 - 4 - 4 - 2 - 2 - 4 - 4)
    (u16le (CHANNELS * BITS_PER_SAMPLE / 8)) 32 2 (by simp [u16le_length, u32le_length]) rfl (by omega)]
  rw [writeAt_step ([82, 73, 70, 70] ++ u32le (36 + n * 2) ++ [87, 65, 86, 69]
      ++ [102, 109, 116, 32] ++ u32le 16 ++ u16le 1 ++ u16le CHANNELS
      ++ u32le SAMPLE_RATE
      ++ u32le (SAMPLE_RATE * CHANNELS * BITS_PER_SAMPLE / 8)
      ++ u16le (CHANNELS * BITS_PER_SAMPLE / 8))
    (44 + n * 2 - 4 - 4 - 4 - 4 - 4 - 2 - 2 - 4 - 4 - 2)
    (u16le BITS_PER_SAMPLE) 34 2 (by simp [u16le_length, u32le_length]) rfl (by omega)]
  rw [writeAt_step ([82, 73, 70, 70] ++ u32le (36 + n * 2) ++ [87, 65, 86, 69]
      ++ [102, 109, 116, 32] ++ u32le 16 ++ u16le 1 ++ u16le CHANNELS
      ++ u32le SAMPLE_RATE
      ++ u32le (SAMPLE_RATE * CHANNELS * BITS_PER_SAMPLE / 8)
      ++ u16le (CHANNELS * BITS_PER_SAMPLE / 8) ++ u16le BITS_PER_SAMPLE)
    (44 + n * 2 - 4 - 4 - 4 - 4 - 4 - 2 - 2 - 4 - 4 - 2 - 2)
    [100, 97, 116, 97] 36 4 (by simp [u16le_length, u32le_length]) rfl (by omega)]
  rw [writeAt_step ([82, 73, 70, 70] ++ u32le (36 + n * 2) ++ [87, 65, 86, 69]
      ++ [102, 109, 116, 32] ++ u32le 16 ++ u16le 1 ++ u16le CHANNELS
      ++ u32le SAMPLE_RATE
      ++ u32le (SAMPLE_RATE * CHANNELS * BITS_PER_SAMPLE / 8)
      ++ u16le (CHANNELS * BITS_PER_SAMPLE / 8) ++ u16le BITS_PER_SAMPLE
      ++ [100, 97, 116, 97])
    (44 + n * 2 - 4 - 4 - 4 - 4 - 4 - 2 - 2 - 4 - 4 - 2 - 2 - 4)
    (u32le (n * 2)) 40 4 (by simp [u16le_length, u32le_length]) rfl (by omega)]
  have hm : 44 + n * 2 - 4 - 4 - 4 - 4 - 4 - 2 - 2 - 4 - 4 - 2 -
      2 - 4 - 4 = n * 2 := by omega
  rw [hm]
  rw [floatTo16BitPCM_eq samples _ _ 44 (by simp [u16le_length, u32le_length]) (by simp [← hn]; omega)]
  rw [List.drop_replicate]
  have h0 : n * 2 - 2 * n = 0 := by omega
  rw [h0]
  simp [wavHeaderBytes, ascii_RIFF, ascii_WAVE, ascii_fmt, ascii_data,
    List.append_assoc]

/-! ### Merging, the volume loop, and silence-verdict helpers -/

/-- The totalLength reduce of mergeFloat32Arrays computes the sum of the
chunk lengths. -/
lemma foldl_length_sum (arrays : List (List ℚ)) (k : ℕ) :
    arrays.foldl (fun sum arr => sum + arr.length) k =
      k + (arrays.map List.length).sum := by
  induction arrays generalizing k with
  | nil => simp
  | cons a t ih => simp [ih]; omega

/-- The copying fold of mergeFloat32Arrays fills the zero region after the
prefix with the concatenation of the chunks. -/
lemma merge_fold (arrays : List (List ℚ)) (p : List ℚ) (m : ℕ)
    (h : (arrays.map List.length).sum ≤ m) :
    (arrays.foldl
      (fun acc arr => (writeAt acc.1 acc.2 arr, acc.2 + arr.length))
      (p ++ List.replicate m 0, p.length)).1 =
    p ++ arrays.flatten ++
      List.replicate (m - (arrays.map List.length).sum) 0 := by
  induction arrays generalizing p m with
  | nil => simp
  | cons a t ih =>
    simp only [List.foldl_cons]
    rw [writeAt_fill a p _ (by simp at h ⊢; omega)]
    rw [List.drop_replicate]
    have hb : p ++ (a ++ List.replicate (m - a.length) (0 : ℚ)) =
        (p ++ a) ++ List.replicate (m - a.length) 0 := by simp
    rw [hb]
    have hoff : p.length + a.length = (p ++ a).length := by simp
    rw [hoff]
    rw [ih (p ++ a) (m - a.length) (by simp at h ⊢; omega)]
    simp [List.append_assoc, Nat.sub_sub]

/-- mergeFloat32Arrays concatenates the chunks in arrival order. -/
lemma mergeFloat32Arrays_eq_join (arrays : List (List ℚ)) :
    mergeFloat32Arrays arrays = arrays.flatten := by
  unfold mergeFloat32Arrays
  rw [foldl_length_sum arrays 0]
  have h2 := merge_fold arrays [] ((arrays.map List.length).sum) (le_refl _)
  simpa using h2

/-- When the chunk list is nonempty, getCurrentWavBlob encodes the
concatenation of the chunks. -/
lemma getCurrentWavBlob_some (pcmData : List (List ℚ)) (h : pcmData ≠ []) :
    getCurrentWavBlob pcmData = some (encodeWAV pcmData.flatten) := by
  simp [getCurrentWavBlob, List.length_eq_zero, h, mergeFloat32Arrays_eq_join]

/-- The accumulating loop of isSilent computes the plain sum and length of
the list it traverses. -/
lemma volumeLoop_eq (l : List ℕ) : volumeLoop l = (l.sum, l.length) := by
  induction l with
  | nil => simp [volumeLoop]
  | cons v rest ih => simp [volumeLoop, ih]

/-- On an all-zero magnitude array the verdict is silent for every positive
threshold. -/
lemma isSilent_zeros (k : ℕ) (thr : ℚ) (h : 0 < thr) :
    isSilent (List.replicate k 0) thr = true := by
  simp [isSilent, volumeLoop_eq, List.drop_replicate, h]

/-- On a saturated magnitude array (all bins at 255) the verdict is
not-silent for every threshold at most 1. -/
lemma isSilent_loud (thr : ℚ) (h : thr ≤ 1) :
    isSilent (List.replicate 8 255) thr = false := by
  have hdrop : List.drop 4 (List.replicate 8 (255 : ℕ)) =
      List.replicate 4 255 := by decide
  have hval : (((List.replicate 4 (255 : ℕ)).sum : ℚ) /
      ((List.replicate 4 (255 : ℕ)).length : ℚ) / 255) = 1 := by
    norm_num [List.sum_replicate]
  simp only [isSilent, volumeLoop_eq, hdrop, hval]
  simp [not_lt, h]

/-- The header is exactly 44 bytes long. -/
lemma wavHeaderBytes_length (n : ℕ) : (wavHeaderBytes n).length = 44 := by
  simp [wavHeaderBytes, ascii_RIFF, ascii_WAVE, ascii_fmt, ascii_data,
    u16le_length, u32le_length]

/-! ### Shared concrete states for witnesses and counterexamples -/

/-- A live session that has not yet detected speech (the ListeningSilence
phase): recording, resources held, no speech detected, empty buffer. -/
def listeningSilenceState : RecState :=
  { initialState with isRecording := true, hasAnalyser := true,
                      hasStream := true, hasAudioContext := true,
                      hasSource := true, hasProcessor := true,
                      intervalActive := true }

/-- A live session about to confirm speech: four consecutive not-silent
frames already counted. -/
def speechPendingState : RecState :=
  { listeningSilenceState with consecutiveSpeechFrames := 4 }

/-- A live session mid-utterance with four consecutive silent frames counted
and one buffered PCM chunk. -/
def midSpeechState : RecState :=
  { listeningSilenceState with isSpeechDetected := true,
                               speechStartTime := 0,
                               consecutiveSilentFrames := 4, pcm := [[1]] }

/-- A live session mid-utterance whose most recent frames were silent (the
speech streak is zero), with one buffered chunk. -/
def midStopState : RecState :=
  { listeningSilenceState with isSpeechDetected := true,
                               speechStartTime := 0,
                               consecutiveSpeechFrames := 0,
                               consecutiveSilentFrames := 3, pcm := [[1]] }

/-- A live session mid-utterance with a live speech streak of seven frames
and one buffered chunk. -/
def stopEmitState : RecState :=
  { midStopState with consecutiveSpeechFrames := 7 }

/-- A configuration asking for a long (2000 ms) silence hold, with threshold
1 and no minimum speech duration. -/
def cfgLongHold : Config :=
  { silenceThreshold := 1, silenceDuration := 2000, minSpeechDuration := 0 }

/-! ### Claim theorems -/

/-- C1: for every flat sequence of float samples, encodeWAV produces exactly
a 44-byte RIFF/WAVE header (RIFF id, chunk size 36 + 2N, WAVE id, fmt chunk
of size 16 with PCM tag 1, channel count 1, sample rate 16000, byte rate
sampleRate*channels*bitsPerSample/8, block align channels*bitsPerSample/8,
16 bits per sample) followed by a data chunk of declared size 2N holding the
N samples as 16-bit signed little-endian integers, each obtained by clamping
the float to [-1,1] and scaling negative values by 32768 and non-negative
ones by 32767; the function is modelled as a pure function, so it is
deterministic and byte-reproducible for identical input by construction. -/
theorem C1_encodeWAV_layout (samples : List ℚ) :
    (encodeWAV samples).bytes =
      wavHeaderBytes samples.length ++ pcmDataBytes samples ∧
    (encodeWAV samples).bytes.length = 44 + 2 * samples.length ∧
    (wavHeaderBytes samples.length).length = 44 ∧
    (pcmDataBytes samples).length = 2 * samples.length ∧
    (encodeWAV samples).btype = "audio/wav" := by
  refine ⟨encodeWAV_bytes samples, ?_, wavHeaderBytes_length _,
    pcmDataBytes_length samples, rfl⟩
  rw [encodeWAV_bytes]
  simp [wavHeaderBytes_length, pcmDataBytes_length]

/-- C5: the silence verdict is the pure, deterministic comparison
(sum of the magnitudes from bin 4 on) / (N - 4) / 255 < threshold. -/
theorem C5_isSilent_formula (data : List ℕ) (thr : ℚ) (h : 4 < data.length) :
    isSilent data thr =
      decide ((((data.drop 4).sum : ℚ) / ((data.length : ℚ) - 4) / 255
        < thr)) := by
  have h4 : (4 : ℕ) ≤ data.length := by omega
  have hlen : ((data.length - 4 : ℕ) : ℚ) = (data.length : ℚ) - 4 := by
    rw [Nat.cast_sub h4]
    norm_num
  simp [isSilent, volumeLoop_eq, List.length_drop, hlen]

/-- C5 witness: the formula evaluated on a concrete magnitude array. -/
theorem C5_isSilent_formula_witness :
    4 < (List.replicate 8 (0 : ℕ)).length ∧
    isSilent (List.replicate 8 0) 1 =
      decide (((((List.replicate 8 (0 : ℕ)).drop 4).sum : ℚ) /
        (((List.replicate 8 (0 : ℕ)).length : ℚ) - 4) / 255 < 1)) :=
  ⟨by decide, C5_isSilent_formula (List.replicate 8 0) 1 (by decide)⟩

/-- C8: pauseRecording is idempotent, and resumeRecording on a non-paused
session is a no-op that changes no state. -/
theorem C8_pause_resume (s : RecState) :
    pauseRecording (pauseRecording s) = pauseRecording s ∧
    (s.isPaused = false → resumeRecording s = s) := by
  constructor
  · by_cases h : s.isPaused = true
    · simp [pauseRecording, h]
    · simp [pauseRecording, h]
  · intro h
    simp [resumeRecording, h]

/-- C8 witness: both halves at the initial state. -/
theorem C8_pause_resume_witness :
    pauseRecording (pauseRecording initialState) = pauseRecording initialState ∧
    resumeRecording initialState = initialState :=
  ⟨(C8_pause_resume initialState).1, (C8_pause_resume initialState).2 rfl⟩

/-- C9: when acquisition fails, startRecording resolves to false, fires the
onError callback, and mutates nothing, so an Idle session stays Idle: not
recording and with no tick timer. -/
theorem C9_start_failure (s : RecState) :
    startRecording false s = (s, false, [Event.errorEvent]) ∧
    (s.isRecording = false → s.intervalActive = false →
      (startRecording false s).1.isRecording = false ∧
      (startRecording false s).1.intervalActive = false) := by
  refine ⟨rfl, ?_⟩
  intro h1 h2
  simp [startRecording, h1, h2]

/-- C9 witness: acquisition failure from the initial (Idle) state. -/
theorem C9_start_failure_witness :
    startRecording false initialState =
      (initialState, false, [Event.errorEvent]) ∧
    ((startRecording false initialState).1.isRecording = false ∧
     (startRecording false initialState).1.intervalActive = false) :=
  ⟨(C9_start_failure initialState).1,
   (C9_start_failure initialState).2 rfl rfl⟩

/-- C2 counterexample: in a live session that has not detected speech (the
ListeningSilence phase, with recording on and the pause flag off), an
incoming raw PCM block is appended to the segment buffer rather than
discarded, so the claim that PCM arriving while ListeningSilence is
discarded is false on the code. -/
theorem C2_silence_pcm_kept :
    listeningSilenceState.isRecording = true ∧
    listeningSilenceState.isSpeechDetected = false ∧
    listeningSilenceState.isPausedRecording = false ∧
    (workletOnMessage [1] listeningSilenceState).pcm = [[1]] := by
  refine ⟨rfl, rfl, rfl, ?_⟩
  simp [workletOnMessage, listeningSilenceState, initialState]

/-- C2 amended: the worklet message handler appends every incoming PCM block
to the current segment buffer whenever the pause flag is off, regardless of
the speech-detection state, and drops blocks only while paused; an emitted
clip therefore contains all PCM captured since the last segment boundary,
including audio captured during silence, not only the speech-verdict
window. -/
theorem C2_append_iff_not_paused (s : RecState) (block : List ℚ) :
    (s.isPausedRecording = false →
      workletOnMessage block s = { s with pcm := s.pcm ++ [block] }) ∧
    (s.isPausedRecording = true → workletOnMessage block s = s) := by
  constructor <;> intro h <;> simp [workletOnMessage, h]

/-- C2 amended witness: one appended block in a live session, one dropped
block in a paused session. -/
theorem C2_append_iff_not_paused_witness :
    workletOnMessage [1] listeningSilenceState =
      { listeningSilenceState with
          pcm := listeningSilenceState.pcm ++ [[1]] } ∧
    workletOnMessage [1] (pauseRecording listeningSilenceState) =
      pauseRecording listeningSilenceState :=
  ⟨(C2_append_iff_not_paused listeningSilenceState [1]).1 rfl,
   (C2_append_iff_not_paused (pauseRecording listeningSilenceState) [1]).2 rfl⟩

/-- C7 counterexample: with the default-style configuration asking for a
2000 ms silence hold (20 frames at the 100 ms tick), the boundary detector
still closes the utterance on the 5th consecutive silent frame — the
hard-coded MIN_SILENCE_FRAMES — and the configured silenceDuration value is
ignored entirely (replacing it by any other value yields a definitionally
identical tick), so the claim that the silence-hold window equals the
configured silenceDuration is false on the code. -/
theorem C7_hold_is_constant :
    cfgLongHold.silenceDuration = 2000 ∧
    midSpeechState.consecutiveSilentFrames + 1 = 5 ∧
    (checkSilence cfgLongHold (List.replicate 8 0) 1000 midSpeechState).2
      ≠ [] ∧
    (checkSilence { cfgLongHold with silenceDuration := 999999 }
        (List.replicate 8 0) 1000 midSpeechState).2 =
      (checkSilence cfgLongHold (List.replicate 8 0) 1000 midSpeechState).2 := by
  refine ⟨rfl, rfl, ?_, rfl⟩
  have hs : isSilent [0, 0, 0, 0, 0, 0, 0, 0] 1 = true :=
    isSilent_zeros 8 1 one_pos
  simp [checkSilence, midSpeechState, listeningSilenceState, initialState,
    cfgLongHold, hs, getCurrentWavBlob, MIN_SILENCE_FRAMES,
    MIN_SPEECH_FRAMES]

/-- C7 amended: the number of consecutive silent frames required to close an
utterance is the fixed constant MIN_SILENCE_FRAMES = 5 (500 ms at the 100 ms
tick): the tick function does not depend on the configured silenceDuration at
all, and no closure fires before the silent streak reaches 5. -/
theorem C7_hold_ignores_config :
    (∀ cfg : Config, ∀ d : ℤ, ∀ freqData : List ℕ, ∀ now : ℤ, ∀ s : RecState,
      checkSilence { cfg with silenceDuration := d } freqData now s =
        checkSilence cfg freqData now s) ∧
    (∀ cfg : Config, ∀ freqData : List ℕ, ∀ now : ℤ, ∀ s : RecState,
      isSilent freqData cfg.silenceThreshold = true →
      s.consecutiveSilentFrames + 1 < MIN_SILENCE_FRAMES →
      (checkSilence cfg freqData now s).2 = []) := by
  constructor
  · intro cfg d freqData now s
    rfl
  · intro cfg freqData now s h1 h2
    by_cases hg : s.hasAnalyser = false ∨ s.isRecording = false ∨
        s.isPaused = true
    · simp [checkSilence, hg]
    · have hclose : ¬ (MIN_SILENCE_FRAMES ≤ s.consecutiveSilentFrames + 1) :=
        by omega
      simp [checkSilence, hg, h1, MIN_SPEECH_FRAMES, hclose]

/-- C7 amended witness: a concrete tick is unchanged by the silenceDuration
option, and a 1-frame silent streak closes nothing. -/
theorem C7_hold_ignores_config_witness :
    checkSilence { defaultConfig with silenceDuration := 123 } [] 0
        initialState =
      checkSilence defaultConfig [] 0 initialState ∧
    (checkSilence cfgLongHold (List.replicate 8 0) 0
        { midSpeechState with consecutiveSilentFrames := 0 }).2 = [] :=
  ⟨C7_hold_ignores_config.1 defaultConfig 123 [] 0 initialState,
   C7_hold_ignores_config.2 cfgLongHold (List.replicate 8 0) 0
     { midSpeechState with consecutiveSilentFrames := 0 }
     (isSilent_zeros 8 cfgLongHold.silenceThreshold one_pos) (by decide)⟩

/-- C10: getCurrentWavBlob returns null exactly when the chunk list is empty,
and otherwise an audio/wav blob of byte length exactly 44 plus twice the
total sample count, whose data encodes the chunks concatenated in arrival
order; moreover a closure reached with an empty buffer fires no callbacks at
all (a non-fatal no-op). -/
theorem C10_getCurrentWavBlob (pcmData : List (List ℚ)) :
    (getCurrentWavBlob pcmData = none ↔ pcmData = []) ∧
    (∀ b : WavBlob, getCurrentWavBlob pcmData = some b →
      b.btype = "audio/wav" ∧
      b.size = 44 + 2 * (pcmData.map List.length).sum ∧
      b.bytes = wavHeaderBytes (pcmData.map List.length).sum ++
        pcmDataBytes pcmData.flatten) ∧
    (∀ cfg : Config, ∀ freqData : List ℕ, ∀ now : ℤ, ∀ s : RecState,
      s.isSpeechDetected = true → s.pcm = [] →
      (checkSilence cfg freqData now s).2 = []) := by
  refine ⟨?_, ?_, ?_⟩
  · by_cases h : pcmData = [] <;>
      simp [getCurrentWavBlob, List.length_eq_zero, h]
  · intro b hb
    by_cases h : pcmData = []
    · subst h
      simp [getCurrentWavBlob] at hb
    · rw [getCurrentWavBlob_some pcmData h] at hb
      have hbe : b = encodeWAV pcmData.flatten := by
        exact (Option.some_inj.mp hb).symm
      subst hbe
      refine ⟨rfl, ?_, ?_⟩
      · show (encodeWAV pcmData.flatten).bytes.length = _
        rw [encodeWAV_bytes]
        simp [wavHeaderBytes_length, pcmDataBytes_length, List.length_flatten]
      · rw [encodeWAV_bytes]
        simp [List.length_flatten]
  · intro cfg freqData now s h1 h2
    by_cases hg : s.hasAnalyser = false ∨ s.isRecording = false ∨
        s.isPaused = true
    · simp [checkSilence, hg]
    · cases hI : isSilent freqData cfg.silenceThreshold
      · simp [checkSilence, hg, hI, h1, h2, MIN_SILENCE_FRAMES,
          MIN_SPEECH_FRAMES]
      · simp [checkSilence, hg, hI, h1, h2, getCurrentWavBlob,
          MIN_SPEECH_FRAMES]
        split
        all_goals first
          | rfl
          | (split <;> rfl)

/-- C10 witness: the none case at an empty chunk list, the blob case at one
chunk of one sample, and the no-callback case at an empty-buffer closure
state. -/
theorem C10_getCurrentWavBlob_witness :
    (getCurrentWavBlob ([] : List (List ℚ)) = none ↔
      ([] : List (List ℚ)) = []) ∧
    ((encodeWAV ([[1]] : List (List ℚ)).flatten).btype = "audio/wav" ∧
     (encodeWAV ([[1]] : List (List ℚ)).flatten).size =
       44 + 2 * (([[1]] : List (List ℚ)).map List.length).sum ∧
     (encodeWAV ([[1]] : List (List ℚ)).flatten).bytes =
       wavHeaderBytes (([[1]] : List (List ℚ)).map List.length).sum ++
         pcmDataBytes ([[1]] : List (List ℚ)).flatten) ∧
    (checkSilence defaultConfig [] 0
      { initialState with isSpeechDetected := true }).2 = [] :=
  ⟨(C10_getCurrentWavBlob []).1,
   (C10_getCurrentWavBlob [[1]]).2.1 (encodeWAV ([[1]] : List (List ℚ)).flatten)
     (getCurrentWavBlob_some [[1]] (by simp)),
   (C10_getCurrentWavBlob []).2.2 defaultConfig [] 0
     { initialState with isSpeechDetected := true } rfl rfl⟩

/-- C6: on the tick where the speech-start transition fires (speech not yet
detected, consecutive-speech streak reaching MIN_SPEECH_FRAMES), the
recorded start time is back-dated by MIN_SPEECH_FRAMES frames of 100 ms:
speechStartTime = now - MIN_SPEECH_FRAMES * 100, the speech-start event
fires, and the state enters the speech-detected phase. -/
theorem C6_speech_start_backdate (cfg : Config) (freqData : List ℕ)
    (now : ℤ) (s : RecState)
    (h1 : s.hasAnalyser = true) (h2 : s.isRecording = true)
    (h3 : s.isPaused = false) (h4 : s.isSpeechDetected = false)
    (h5 : s.consecutiveSpeechFrames + 1 = MIN_SPEECH_FRAMES)
    (h6 : isSilent freqData cfg.silenceThreshold = false) :
    (checkSilence cfg freqData now s).1.speechStartTime =
      now - (MIN_SPEECH_FRAMES : ℤ) * 100 ∧
    (checkSilence cfg freqData now s).1.isSpeechDetected = true ∧
    (checkSilence cfg freqData now s).2 = [Event.speechStart] := by
  have h5le : MIN_SPEECH_FRAMES ≤ s.consecutiveSpeechFrames + 1 := by omega
  simp [checkSilence, h1, h2, h3, h4, h5, h6, h5le, MIN_SILENCE_FRAMES,
    MIN_SPEECH_FRAMES]

/-- C6 witness: the fifth consecutive not-silent frame at time 500 back-dates
the start to 0. -/
theorem C6_speech_start_backdate_witness :
    (checkSilence cfgLongHold (List.replicate 8 255) 500
      speechPendingState).1.speechStartTime =
        500 - (MIN_SPEECH_FRAMES : ℤ) * 100 ∧
    (checkSilence cfgLongHold (List.replicate 8 255) 500
      speechPendingState).1.isSpeechDetected = true ∧
    (checkSilence cfgLongHold (List.replicate 8 255) 500
      speechPendingState).2 = [Event.speechStart] :=
  C6_speech_start_backdate cfgLongHold (List.replicate 8 255) 500
    speechPendingState rfl rfl rfl rfl (by decide)
    (isSilent_loud cfgLongHold.silenceThreshold le_rfl)

/-- C3: on the tick where the silent streak reaches the silence-hold count
while speech is detected, the closing duration is now - speechStartedAtMs;
if it meets minSpeechDuration the buffered utterance is encoded and emitted
through onSpeechEnd, onSilenceSubmit and onDataAvailable and the buffer is
cleared; otherwise the utterance is discarded silently — no emission and no
error callback — and the buffer is cleared as well. -/
theorem C3_silence_close (cfg : Config) (freqData : List ℕ) (now : ℤ)
    (s : RecState)
    (h1 : s.hasAnalyser = true) (h2 : s.isRecording = true)
    (h3 : s.isPaused = false) (h4 : s.isSpeechDetected = true)
    (h5 : s.consecutiveSilentFrames + 1 = MIN_SILENCE_FRAMES)
    (h6 : isSilent freqData cfg.silenceThreshold = true) :
    (cfg.minSpeechDuration ≤ now - s.speechStartTime → s.pcm ≠ [] →
      checkSilence cfg freqData now s =
        ({ s with isSpeechDetected := false, speechStartTime := 0,
                  consecutiveSilentFrames := 0, consecutiveSpeechFrames := 0,
                  pcm := [] },
         [Event.speechEnd (now - s.speechStartTime),
          Event.silenceSubmit (encodeWAV s.pcm.flatten)
            (((encodeWAV s.pcm.flatten).size : ℚ) / 1024)
            (now - s.speechStartTime),
          Event.dataAvailable (encodeWAV s.pcm.flatten)])) ∧
    (now - s.speechStartTime < cfg.minSpeechDuration →
      checkSilence cfg freqData now s =
        ({ s with isSpeechDetected := false, speechStartTime := 0,
                  consecutiveSilentFrames := 0, consecutiveSpeechFrames := 0,
                  pcm := [] }, [])) := by
  have h5le : MIN_SILENCE_FRAMES ≤ s.consecutiveSilentFrames + 1 := by omega
  constructor
  · intro hd hpcm
    simp [checkSilence, h1, h2, h3, h4, h6, h5le, hd,
      getCurrentWavBlob_some s.pcm hpcm, MIN_SPEECH_FRAMES]
  · intro hd
    have hd2 : ¬ (cfg.minSpeechDuration ≤ now - s.speechStartTime) := by
      omega
    simp [checkSilence, h1, h2, h3, h4, h6, h5le, hd2, MIN_SPEECH_FRAMES]

/-- C3 witness: the fifth consecutive silent frame at time 1000 closes a
1000 ms utterance of one buffered chunk and emits it. -/
theorem C3_silence_close_witness :
    checkSilence defaultConfig (List.replicate 8 0) 1000 midSpeechState =
      ({ midSpeechState with isSpeechDetected := false, speechStartTime := 0,
                             consecutiveSilentFrames := 0,
                             consecutiveSpeechFrames := 0, pcm := [] },
       [Event.speechEnd (1000 - midSpeechState.speechStartTime),
        Event.silenceSubmit (encodeWAV midSpeechState.pcm.flatten)
          (((encodeWAV midSpeechState.pcm.flatten).size : ℚ) / 1024)
          (1000 - midSpeechState.speechStartTime),
        Event.dataAvailable (encodeWAV midSpeechState.pcm.flatten)]) :=
  (C3_silence_close defaultConfig (List.replicate 8 0) 1000 midSpeechState
    rfl rfl rfl rfl (by decide)
    (isSilent_zeros 8 defaultConfig.silenceThreshold
      (show (0 : ℚ) < 0.15 by norm_num))).1
    (by decide)
    (by simp [midSpeechState, listeningSilenceState, initialState])

/-- C4 counterexample: stopRecording is called mid-utterance (speech
detected) with elapsed duration 1000 ms ≥ minSpeechDuration = 800 ms and a
non-empty buffer, yet no final clip is emitted, because the source
additionally requires a live consecutive-speech streak of at least
MIN_SPEECH_FRAMES at the moment of the stop and here the streak is 0 (the
last frames were silent); so the claim that such a stop always emits exactly
one final clip is false on the code. -/
theorem C4_stop_no_emit :
    midStopState.isSpeechDetected = true ∧
    defaultConfig.minSpeechDuration ≤ 1000 - midStopState.speechStartTime ∧
    midStopState.pcm ≠ [] ∧
    (stopRecording defaultConfig 1000 midStopState).2 = [] := by
  refine ⟨rfl, by decide, ?_, ?_⟩
  · simp [midStopState, listeningSilenceState, initialState]
  · simp [stopRecording, midStopState, listeningSilenceState, initialState,
      MIN_SPEECH_FRAMES]

/-- C4 amended: stopRecording always halts the tick timer, clears the pause
and recording flags, clears the buffered chunks and both frame counters, and
releases every audio resource; it emits exactly one final clip — under the
same emission contract as a silence-triggered close — exactly when speech is
detected, the live consecutive-speech streak is at least MIN_SPEECH_FRAMES,
the elapsed duration since speechStartedAtMs meets minSpeechDuration, and
the buffer is non-empty; in every other case it emits nothing. -/
theorem C4_stop_contract (cfg : Config) (now : ℤ) (s : RecState) :
    ((stopRecording cfg now s).1.isRecording = false ∧
     (stopRecording cfg now s).1.isPaused = false ∧
     (stopRecording cfg now s).1.isPausedRecording = false ∧
     (stopRecording cfg now s).1.intervalActive = false ∧
     (stopRecording cfg now s).1.pcm = [] ∧
     (stopRecording cfg now s).1.consecutiveSilentFrames = 0 ∧
     (stopRecording cfg now s).1.consecutiveSpeechFrames = 0 ∧
     (stopRecording cfg now s).1.hasAnalyser = false ∧
     (stopRecording cfg now s).1.hasStream = false ∧
     (stopRecording cfg now s).1.hasAudioContext = false ∧
     (stopRecording cfg now s).1.hasSource = false ∧
     (stopRecording cfg now s).1.hasProcessor = false) ∧
    (s.isSpeechDetected = true →
     MIN_SPEECH_FRAMES ≤ s.consecutiveSpeechFrames →
     cfg.minSpeechDuration ≤ now - s.speechStartTime →
     s.pcm ≠ [] →
     (stopRecording cfg now s).2 =
       [Event.speechEnd (now - s.speechStartTime),
        Event.silenceSubmit (encodeWAV s.pcm.flatten)
          (((encodeWAV s.pcm.flatten).size : ℚ) / 1024)
          (now - s.speechStartTime),
        Event.dataAvailable (encodeWAV s.pcm.flatten)]) ∧
    (¬ (s.isSpeechDetected = true ∧
        MIN_SPEECH_FRAMES ≤ s.consecutiveSpeechFrames ∧
        cfg.minSpeechDuration ≤ now - s.speechStartTime ∧
        s.pcm ≠ []) →
     (stopRecording cfg now s).2 = []) := by
  refine ⟨⟨rfl, rfl, rfl, rfl, rfl, rfl, rfl, rfl, rfl, rfl, rfl, rfl⟩,
    ?_, ?_⟩
  · intro h1 h2 h3 h4
    simp [stopRecording, h1, h2, h3, getCurrentWavBlob_some s.pcm h4]
  · intro hn
    by_cases hA : s.isSpeechDetected = true
    · by_cases hB : MIN_SPEECH_FRAMES ≤ s.consecutiveSpeechFrames
      · by_cases hC : cfg.minSpeechDuration ≤ now - s.speechStartTime
        · have hD : s.pcm = [] := by
            by_contra hD
            exact hn ⟨hA, hB, hC, hD⟩
          simp [stopRecording, hA, hB, hC, hD, getCurrentWavBlob]
        · simp [stopRecording, hA, hB, hC]
      · simp [stopRecording, hA, hB]
    · simp [stopRecording, hA]

/-- C4 amended witness: the cleanup facts and the exact final emission at a
stop with a live 7-frame speech streak, 1000 ms of speech and one buffered
chunk. -/
theorem C4_stop_contract_witness :
    (stopRecording defaultConfig 1000 stopEmitState).1.isRecording = false ∧
    (stopRecording defaultConfig 1000 stopEmitState).1.intervalActive =
      false ∧
    (stopRecording defaultConfig 1000 stopEmitState).1.pcm = [] ∧
    (stopRecording defaultConfig 1000 stopEmitState).2 =
      [Event.speechEnd (1000 - stopEmitState.speechStartTime),
       Event.silenceSubmit (encodeWAV stopEmitState.pcm.flatten)
         (((encodeWAV stopEmitState.pcm.flatten).size : ℚ) / 1024)
         (1000 - stopEmitState.speechStartTime),
       Event.dataAvailable (encodeWAV stopEmitState.pcm.flatten)] :=
  ⟨(C4_stop_contract defaultConfig 1000 stopEmitState).1.1,
   (C4_stop_contract defaultConfig 1000 stopEmitState).1.2.2.2.1,
   (C4_stop_contract defaultConfig 1000 stopEmitState).1.2.2.2.2.1,
   (C4_stop_contract defaultConfig 1000 stopEmitState).2.1 rfl (by decide)
     (by decide)
     (by simp [stopEmitState, midStopState, listeningSilenceState,
       initialState])⟩

end AudioRecorder
